import Mathlib

/-!
Verification of the three BLE command-line scripts of this repository
(`list_ble_devices.py`, `connect_ble_device.py`, `write_ble_characteristic.py`)
against their natural-language specification.

Python strings are modelled as lists of Unicode code points (`List Nat`);
byte strings as lists of byte values.  The BLE library (`bleak`) is an
external collaborator: its behaviour at each call site is an explicit
environment parameter, and the calls the scripts issue to it are recorded
in an event trace.  Python exceptions are modelled by `PyExc`, keeping the
distinction between `Exception` subclasses (caught by `except Exception`)
and `BaseException`-only classes (`SystemExit`, `KeyboardInterrupt` /
`asyncio.CancelledError`), which the scripts' handlers do not catch.
-/

namespace PyStr

/-- Unicode code points of a Lean string literal; used to write down the
Python `str` values appearing in the scripts, which this development models
as lists of code points. -/
def codes (s : String) : List Nat := s.data.map Char.toNat

/-- Python `str.replace(old, "")` for a one-character pattern `old`:
removes every occurrence of that character. -/
def removeAll (old : Nat) (s : List Nat) : List Nat := s.filter (fun c => c ≠ old)

/-- ASCII whitespace as recognised by CPython's `Py_ISSPACE`
(space, tab, newline, vertical tab, form feed, carriage return). -/
def isSpace (c : Nat) : Bool := c = 32 || c = 9 || c = 10 || c = 11 || c = 12 || c = 13

/-- ASCII decimal digit. -/
def isDigit (c : Nat) : Bool := 48 ≤ c && c ≤ 57

/-- ASCII hexadecimal digit (`0-9`, `a-f`, `A-F`). -/
def isHexDigit (c : Nat) : Bool := (48 ≤ c && c ≤ 57) || (97 ≤ c && c ≤ 102) || (65 ≤ c && c ≤ 70)

/-- Numeric value of an ASCII hexadecimal digit. -/
def hexVal (c : Nat) : Nat := if c ≤ 57 then c - 48 else if 97 ≤ c then c - 87 else c - 55

/-- CPython `bytes.fromhex` (`_PyBytes_FromHex`): repeatedly skip ASCII
whitespace, then read exactly two hexadecimal digits forming one byte;
fail if a non-hex character stands where a digit is expected or the input
ends after the first digit of a pair.  ASCII whitespace is therefore
ignored between byte pairs (but not inside a pair). -/
def fromhex : List Nat → Option (List Nat)
  | [] => some []
  | [c] => if isSpace c then some [] else none
  | c :: d :: rest =>
    if isSpace c then fromhex (d :: rest)
    else if isHexDigit c && isHexDigit d then
      (fromhex rest).map (fun bs => (16 * hexVal c + hexVal d) :: bs)
    else none

/-- Lower-case hexadecimal digit character for a value below 16,
as produced by Python's `bytes.hex()` / `f"{b:02x}"`. -/
def hexDigitChar (b : Nat) : Nat := if b < 10 then 48 + b else 87 + b

/-- Python `bytes.hex()`: two lower-case hex digits per byte. -/
def bytesHex (bs : List Nat) : List Nat :=
  (bs.map (fun b => [hexDigitChar (b / 16), hexDigitChar (b % 16)])).flatten

/-- ASCII lower-casing of a code point (`A`-`Z` map to `a`-`z`);
the fragment of Python `str.lower()` relevant to hexadecimal text. -/
def asciiLower (c : Nat) : Nat := if 65 ≤ c ∧ c ≤ 90 then c + 32 else c

/-- UTF-8 encoding of one code point (Python `str.encode("utf-8")`,
per character). -/
def utf8EncodeChar (c : Nat) : List Nat :=
  if c < 0x80 then [c]
  else if c < 0x800 then [0xC0 + c / 64, 0x80 + c % 64]
  else if c < 0x10000 then [0xE0 + c / 4096, 0x80 + (c / 64) % 64, 0x80 + c % 64]
  else [0xF0 + c / 262144, 0x80 + (c / 4096) % 64, 0x80 + (c / 64) % 64, 0x80 + c % 64]

/-- Python `str.encode("utf-8")`. -/
def encodeUtf8 (s : List Nat) : List Nat := (s.map utf8EncodeChar).flatten

/-- Whether a byte is a UTF-8 continuation byte (`0x80`-`0xBF`). -/
def isCont (b : Nat) : Bool := 0x80 ≤ b && b ≤ 0xBF

/-- Strict UTF-8 decoding, as Python `bytes.decode("utf-8")`: rejects
overlong forms, surrogates and code points above `0x10FFFF`.  `none`
models `UnicodeDecodeError`. -/
def utf8Decode : List Nat → Option (List Nat)
  | [] => some []
  | b :: rest =>
    if b < 0x80 then (utf8Decode rest).map (fun cs => b :: cs)
    else if 0xC2 ≤ b && b ≤ 0xDF then
      match rest with
      | b1 :: rest1 =>
        if isCont b1 then
          (utf8Decode rest1).map (fun cs => (64 * (b - 0xC0) + (b1 - 0x80)) :: cs)
        else none
      | [] => none
    else if 0xE0 ≤ b && b ≤ 0xEF then
      match rest with
      | b1 :: b2 :: rest2 =>
        let lowOk : Bool :=
          if b = 0xE0 then 0xA0 ≤ b1 && b1 ≤ 0xBF
          else if b = 0xED then 0x80 ≤ b1 && b1 ≤ 0x9F
          else isCont b1
        if lowOk && isCont b2 then
          (utf8Decode rest2).map
            (fun cs => (4096 * (b - 0xE0) + 64 * (b1 - 0x80) + (b2 - 0x80)) :: cs)
        else none
      | _ => none
    else if 0xF0 ≤ b && b ≤ 0xF4 then
      match rest with
      | b1 :: b2 :: b3 :: rest3 =>
        let lowOk : Bool :=
          if b = 0xF0 then 0x90 ≤ b1 && b1 ≤ 0xBF
          else if b = 0xF4 then 0x80 ≤ b1 && b1 ≤ 0x8F
          else isCont b1
        if lowOk && isCont b2 && isCont b3 then
          (utf8Decode rest3).map
            (fun cs =>
              (262144 * (b - 0xF0) + 4096 * (b1 - 0x80) + 64 * (b2 - 0x80) + (b3 - 0x80)) :: cs)
        else none
      | _ => none
    else none

/-- Strip leading and trailing ASCII whitespace (Python `int(str)` ignores
surrounding whitespace). -/
def stripWs (s : List Nat) : List Nat :=
  ((s.dropWhile (fun c => isSpace c)).reverse.dropWhile (fun c => isSpace c)).reverse

/-- After the first digit of a decimal literal: digits, with single
underscores allowed only between digits. -/
def digitsTail (acc : Nat) : List Nat → Option Nat
  | [] => some acc
  | c :: rest =>
    if isDigit c then digitsTail (10 * acc + (c - 48)) rest
    else if c = 95 then
      match rest with
      | d :: rest2 => if isDigit d then digitsTail (10 * acc + (d - 48)) rest2 else none
      | [] => none
    else none

/-- A non-empty decimal digit group (underscores between digits allowed). -/
def parseDigits : List Nat → Option Nat
  | [] => none
  | c :: rest => if isDigit c then digitsTail (c - 48) rest else none

/-- CPython `int(str)` on ASCII input: surrounding whitespace stripped,
optional sign, then a non-empty decimal digit group with single
underscores between digits.  (Non-ASCII decimal digit forms, which CPython
also accepts, are not modelled; the theorems below condition only on the
outcome of this parse.) -/
def pyInt (s : List Nat) : Option Int :=
  match stripWs s with
  | 43 :: rest => (parseDigits rest).map (fun n => (n : Int))
  | 45 :: rest => (parseDigits rest).map (fun n => -(n : Int))
  | t => (parseDigits t).map (fun n => (n : Int))

end PyStr

/-- A raised Python exception.  `bleakError` is `bleak.exc.BleakError`,
`otherError` any other `Exception` subclass; `systemExit` (raised by
`sys.exit`) and `cancelled` (`KeyboardInterrupt` / `asyncio.CancelledError`)
derive only from `BaseException` and are not caught by `except Exception`. -/
inductive PyExc where
  | bleakError (msg : List Nat)
  | otherError (msg : List Nat)
  | systemExit (code : Nat)
  | cancelled
  deriving DecidableEq, Repr

/-- Whether an `except Exception` clause catches this exception. -/
def PyExc.isException : PyExc → Bool
  | .bleakError _ => true
  | .otherError _ => true
  | .systemExit _ => false
  | .cancelled => false

/-- The message text interpolated when a handler prints the exception. -/
def PyExc.msg : PyExc → List Nat
  | .bleakError m => m
  | .otherError m => m
  | .systemExit _ => []
  | .cancelled => []

/-- Whether a library call result raised nothing, or raised an exception
that an `except Exception` clause catches. -/
def catchableErr : Except PyExc (List Nat) → Bool
  | .error e => e.isException
  | .ok _ => true

/-- Calls the scripts issue to the `bleak` collaborator.
`constructClient` is the `BleakClient(mac_address)` constructor,
`connectAttempt` the `__aenter__` connect, `disconnect` the `__aexit__`
release of the connection. -/
inductive Event where
  | constructClient (mac : List Nat)
  | connectAttempt
  | disconnect
  | writeChar (uuid : List Nat) (value : List Nat)
  deriving DecidableEq, Repr

/-- The informative lines the scripts print (horizontal rules, blank lines
and wall-clock timestamps are not modelled). -/
inductive Line where
  | usingMac (mac : List Nat)
  | descriptorDisplayEnabled
  | invalidMacFormat (mac : List Nat)
  | expectedMacFormat
  | attemptingConnect (mac : List Nat)
  | connectedTo (mac : List Nat)
  | failedToConnect (mac : List Nat)
  | disconnectedFrom (mac : List Nat)
  | bluetoothError (msg : List Nat)
  | unexpectedError (msg : List Nat)
  | noServices
  | foundServices (n : Nat)
  | serviceHeader (uuid description : List Nat) (handle : Nat)
  | characteristicsCount (n : Nat)
  | noCharacteristics
  | charHeader (uuid description : List Nat) (handle : Nat) (props : List (List Nat))
  | valueString (s : List Nat)
  | valueHex (bs : List Nat)
  | valueRaw (bs : List Nat)
  | couldNotRead (msg : List Nat)
  | descriptorsCount (n : Nat)
  | descHeader (uuid description : List Nat) (handle : Nat)
  | descValueString (s : List Nat)
  | descValueHex (bs : List Nat)
  | descCouldNotRead (msg : List Nat)
  | errorExploring (msg : List Nat)
  | explorationCompleted
  | explorationFailed
  | usingUuid (uuid : List Nat)
  | usingValue (v : List Nat) (hexMode : Bool)
  | invalidHexString (v : List Nat)
  | writingTo (uuid : List Nat)
  | wroteOk (uuid : List Nat)
  | failedWrite (msg : List Nat)
  | writeCompleted
  | writeFailed
  | invalidScanTime
  | usingDefaultScanTime
  | scanningFor (t : Int)
  | errorDuringScan (msg : List Nat)
  | noDevicesFound
  | foundDevices (n : Nat)
  | deviceRow (name address : List Nat) (rssi : Option Int)
      (shownUuids : List (List Nat)) (ellipsis : Bool)
  | additionalHeader
  | additionalRow (name : Option (List Nat)) (address : List Nat)
  deriving DecidableEq, Repr

/-- The `if __name__ == "__main__"` harness shared by all three scripts:
`asyncio.run(main())` inside `try/except KeyboardInterrupt/except Exception`.
Maps the outcome of `main` to the process exit status: normal return exits 0;
an uncaught `SystemExit` carries its code; `KeyboardInterrupt` is caught and
the process ends normally; any `Exception` reaches the catch-all, which calls
`sys.exit(1)`. -/
def runProcess (res : Except PyExc Unit) : Nat :=
  match res with
  | .ok () => 0
  | .error (.systemExit c) => c
  | .error .cancelled => 0
  | .error _ => 1

namespace ListBle

/-- A device reported by `BleakScanner.discover`.  `rssi = none` models a
device object without an `rssi` metadata key; `some none` a key whose value
is `None`.  `uuids = none` models a missing `uuids` metadata key. -/
structure Device where
  name : Option (List Nat)
  address : List Nat
  rssi : Option (Option Int)
  uuids : Option (List (List Nat))
  deriving DecidableEq, Repr

/-- What `BleakScanner.discover` does in a given run. -/
inductive ScanOutcome where
  | ok (devices : List Device)
  | raises (msg : List Nat)
  deriving DecidableEq, Repr

/-- `scan_ble_devices`: delegates to `BleakScanner.discover`; when the
library raises, prints the error and returns the empty list. -/
def scan_ble_devices (scan_time : Int) (outcome : ScanOutcome) : List Device × List Line :=
  match outcome with
  | .ok ds => (ds, [.scanningFor scan_time])
  | .raises m => ([], [.scanningFor scan_time, .errorDuringScan m])

/-- `device.name if device.name else "<Unknown>"` (empty names are falsy). -/
def displayName (d : Device) : List Nat :=
  match d.name with
  | some n => if n = [] then PyStr.codes "<Unknown>" else n
  | none => PyStr.codes "<Unknown>"

/-- One row of the device table: name, address, RSSI when the metadata key
is present with a non-`None` value, and the first two advertised UUIDs with
an ellipsis marker when more exist. -/
def deviceRow (d : Device) : Line :=
  let rssi : Option Int :=
    match d.rssi with
    | some (some v) => some v
    | _ => none
  let (shown, ell) :=
    match d.uuids with
    | some us => (us.take 2, decide (us.length > 2))
    | none => ([], false)
  .deviceRow (displayName d) d.address rssi shown ell

/-- `display_devices`: "No BLE devices found." for an empty list, else a
count line and one row per device. -/
def display_devices (devices : List Device) : List Line :=
  if devices = [] then [.noDevicesFound]
  else .foundDevices devices.length :: devices.map deviceRow

/-- The scan-time logic of `main`: default 10 when no argument; `int(...)`
failure or a non-positive value raises `ValueError`, caught to print a
warning and fall back to 10. -/
def parseScanTime (argv1 : Option (List Nat)) : Int × List Line :=
  match argv1 with
  | none => (10, [])
  | some s =>
    match PyStr.pyInt s with
    | none => (10, [.invalidScanTime, .usingDefaultScanTime])
    | some n =>
      if n ≤ 0 then (10, [.invalidScanTime, .usingDefaultScanTime]) else (n, [])

/-- The additional-information section printed when devices were found. -/
def additionalInfo (devices : List Device) : List Line :=
  .additionalHeader :: devices.map (fun d => .additionalRow d.name d.address)

/-- `main` of `list_ble_devices.py`: parse the scan time, scan, display,
then the additional-information section when the list is non-empty. -/
def main (argv1 : Option (List Nat)) (outcome : ScanOutcome) : List Line :=
  let (t, wl) := parseScanTime argv1
  let (devices, sl) := scan_ble_devices t outcome
  wl ++ sl ++ display_devices devices ++
    (if devices = [] then [] else additionalInfo devices)

end ListBle

/-- The MAC-address check shared verbatim by `connect_ble_device.py` and
`write_ble_characteristic.py`:
`mac_address.replace(":", "").replace("-", "")`. -/
def stripSeparators (s : List Nat) : List Nat :=
  PyStr.removeAll 45 (PyStr.removeAll 58 s)

/-- Models `async with BleakClient(mac) as client: body`.  The client is
constructed, then `__aenter__` connects (and may raise, in which case
`__aexit__` never runs); once connected, the scope's `__aexit__` invokes
disconnect on every exit — normal return, a raised exception, or
cancellation delivered at an await point — and the body's outcome is then
propagated unchanged.  `body` is the scope's events, printed lines and
result. -/
def withClient (connectResult : Except PyExc Unit) (mac : List Nat)
    (body : List Event × List Line × Except PyExc Bool) :
    List Event × List Line × Except PyExc Bool :=
  match connectResult with
  | .error e => ([.constructClient mac, .connectAttempt], [], .error e)
  | .ok () =>
    let (evs, ls, res) := body
    ([.constructClient mac, .connectAttempt] ++ evs ++ [.disconnect], ls, res)

/-- The line printed by whichever of the two handlers catches `e`:
`except BleakError` prints the Bluetooth-error message, `except Exception`
the unexpected-error message. -/
def PyExc.reportLine : PyExc → Line
  | .bleakError m => .bluetoothError m
  | e => .unexpectedError e.msg

/-- The `except BleakError` / `except Exception` pair wrapping the
connection scope in both connecting scripts: either handler prints the
error and the function returns `False`; exceptions deriving only from
`BaseException` (cancellation, `SystemExit`) match neither clause and
propagate. -/
def pyCatch (r : List Event × List Line × Except PyExc Bool) :
    List Event × List Line × Except PyExc Bool :=
  match r with
  | (tr, ls, .error e) =>
    if e.isException then (tr, ls ++ [e.reportLine], .ok false) else (tr, ls, .error e)
  | other => other

deriving instance DecidableEq for Except

namespace ConnectBle

/-- A GATT descriptor as the collaborator presents it; `readResult` is what
`client.read_gatt_descriptor(handle)` would yield for it in this run. -/
structure Descriptor where
  uuid : List Nat
  description : List Nat
  handle : Nat
  readResult : Except PyExc (List Nat)
  deriving DecidableEq, Repr

/-- A GATT characteristic; `readResult` is what `client.read_gatt_char`
would yield for it in this run. -/
structure Characteristic where
  uuid : List Nat
  description : List Nat
  handle : Nat
  properties : List (List Nat)
  readResult : Except PyExc (List Nat)
  descriptors : List Descriptor
  deriving DecidableEq, Repr

/-- A GATT service as enumerated from `client.services`. -/
structure Service where
  uuid : List Nat
  description : List Nat
  handle : Nat
  characteristics : List Characteristic
  deriving DecidableEq, Repr

/-- Rendering of one read characteristic value: decode as UTF-8 when valid,
else print the hex rendering and the raw bytes. -/
def renderValue (v : List Nat) : List Line :=
  match PyStr.utf8Decode v with
  | some s => [.valueString s]
  | none => [.valueHex v, .valueRaw v]

/-- Rendering of one read descriptor value (no raw-bytes line here). -/
def renderDescValue (v : List Nat) : List Line :=
  match PyStr.utf8Decode v with
  | some s => [.descValueString s]
  | none => [.descValueHex v]

/-- One descriptor: header lines, then the guarded read whose
`except Exception` handler records the error inline; a non-`Exception`
raise (cancellation) propagates. -/
def renderDesc (d : Descriptor) : Except PyExc (List Line) := do
  let valueLines ←
    match d.readResult with
    | .ok v => pure (renderDescValue v)
    | .error e =>
      if e.isException then pure [Line.descCouldNotRead e.msg] else Except.error e
  pure ([Line.descHeader d.uuid d.description d.handle] ++ valueLines)

/-- All descriptors of one characteristic, in order. -/
def renderDescs : List Descriptor → Except PyExc (List Line)
  | [] => .ok []
  | d :: ds => do
    let first ← renderDesc d
    let rest ← renderDescs ds
    pure (first ++ rest)

/-- The guarded value read of one characteristic: attempted only when
`"read"` is among its properties; its `except Exception` handler records
the error inline, while a non-`Exception` raise propagates. -/
def readValuePart (c : Characteristic) : Except PyExc (List Line) :=
  if c.properties.contains (PyStr.codes "read") then
    match c.readResult with
    | .ok v => pure (renderValue v)
    | .error e =>
      if e.isException then pure [Line.couldNotRead e.msg] else Except.error e
  else pure []

/-- The descriptor section of one characteristic, shown only when
descriptor display is enabled and descriptors exist. -/
def descPart (show_descriptors : Bool) (c : Characteristic) : Except PyExc (List Line) :=
  if show_descriptors then
    if c.descriptors = [] then pure []
    else do
      let inner ← renderDescs c.descriptors
      pure (Line.descriptorsCount c.descriptors.length :: inner)
  else pure []

/-- One characteristic: header lines, the guarded value read, then, when
requested, its descriptors. -/
def renderChar (show_descriptors : Bool) (c : Characteristic) : Except PyExc (List Line) := do
  let readLines ← readValuePart c
  let descLines ← descPart show_descriptors c
  pure ([Line.charHeader c.uuid c.description c.handle c.properties] ++ readLines ++ descLines)

/-- All characteristics of one service, in order. -/
def renderChars (show_descriptors : Bool) : List Characteristic → Except PyExc (List Line)
  | [] => .ok []
  | c :: cs => do
    let first ← renderChar show_descriptors c
    let rest ← renderChars show_descriptors cs
    pure (first ++ rest)

/-- One service: header, then its characteristics (or the
no-characteristics note). -/
def renderService (show_descriptors : Bool) (s : Service) : Except PyExc (List Line) := do
  let charLines ←
    if s.characteristics = [] then pure [Line.noCharacteristics]
    else do
      let inner ← renderChars show_descriptors s.characteristics
      pure (Line.characteristicsCount s.characteristics.length :: inner)
  pure (Line.serviceHeader s.uuid s.description s.handle :: charLines)

/-- All services, in the order the collaborator reports them. -/
def renderServices (show_descriptors : Bool) : List Service → Except PyExc (List Line)
  | [] => .ok []
  | s :: ss => do
    let first ← renderService show_descriptors s
    let rest ← renderServices show_descriptors ss
    pure (first ++ rest)

/-- `explore_device_services`: the enumeration body inside the function's
outer `try`; its `except Exception` prints an error line instead of
propagating, while non-`Exception` raises still propagate. -/
def explore_device_services (services : List Service) (show_descriptors : Bool) :
    Except PyExc (List Line) :=
  let body : Except PyExc (List Line) :=
    if services = [] then .ok [.noServices]
    else do
      let svcLines ← renderServices show_descriptors services
      pure (Line.foundServices services.length :: svcLines)
  match body with
  | .ok ls => .ok ls
  | .error e => if e.isException then .ok [.errorExploring e.msg] else .error e

/-- Whether the read attempted for this descriptor either succeeds or
raises an exception its inline handler catches. -/
def descCatchable (d : Descriptor) : Bool := catchableErr d.readResult

/-- Whether every read this characteristic triggers (its own value read,
when `"read"` is among the properties, and its descriptors' reads when
descriptor display is on) either succeeds or raises a caught exception. -/
def charCatchable (show_descriptors : Bool) (c : Characteristic) : Bool :=
  (!(c.properties.contains (PyStr.codes "read")) || catchableErr c.readResult) &&
  (!show_descriptors || c.descriptors.all descCatchable)

/-- `charCatchable` over every characteristic of every service. -/
def servicesCatchable (show_descriptors : Bool) (services : List Service) : Bool :=
  services.all (fun s => s.characteristics.all (charCatchable show_descriptors))

/-- The UUIDs of the characteristic-header lines of a report, in order. -/
def charUuidsOf (ls : List Line) : List (List Nat) :=
  ls.filterMap fun l =>
    match l with
    | .charHeader u _ _ _ => some u
    | _ => none

/-- The UUIDs of the service-header lines of a report, in order. -/
def serviceUuidsOf (ls : List Line) : List (List Nat) :=
  ls.filterMap fun l =>
    match l with
    | .serviceHeader u _ _ => some u
    | _ => none

/-- What the collaborator does in one run of `connect_and_explore`. -/
structure ConnectEnv where
  connectResult : Except PyExc Unit
  is_connected : Bool
  services : List Service
  deriving Repr

/-- The suite of the `async with` block of `connect_and_explore`: when
`client.is_connected`, explore the services and return `True`; otherwise
report failure and return `False`. -/
def exploreScopeBody (env : ConnectEnv) (mac : List Nat) (show_descriptors : Bool) :
    List Event × List Line × Except PyExc Bool :=
  if env.is_connected then
    match explore_device_services env.services show_descriptors with
    | .ok ls => ([], [Line.connectedTo mac] ++ ls ++ [Line.disconnectedFrom mac], .ok true)
    | .error e => ([], [Line.connectedTo mac], .error e)
  else ([], [.failedToConnect mac], .ok false)

/-- `connect_and_explore`: the connection scope under the
`except BleakError` / `except Exception` handlers, returning the overall
success flag. -/
def connect_and_explore (env : ConnectEnv) (mac : List Nat) (show_descriptors : Bool) :
    List Event × List Line × Except PyExc Bool :=
  let (tr, ls, res) :=
    pyCatch (withClient env.connectResult mac (exploreScopeBody env mac show_descriptors))
  (tr, .attemptingConnect mac :: ls, res)

/-- The banner and option lines `main` prints before validating. -/
def headerLines (mac : List Nat) (show_descriptors : Bool) : List Line :=
  .usingMac mac :: (if show_descriptors then [.descriptorDisplayEnabled] else [])

/-- `main` of `connect_ble_device.py`: print the header, reject a MAC
address whose separator-stripped length is not 12 and return, else run
`connect_and_explore` and print the summary line. -/
def main (mac : List Nat) (show_descriptors : Bool) (env : ConnectEnv) :
    List Event × List Line × Except PyExc Unit :=
  if (stripSeparators mac).length ≠ 12 then
    ([], headerLines mac show_descriptors ++ [.invalidMacFormat mac, .expectedMacFormat], .ok ())
  else
    let (evs, ls, res) := connect_and_explore env mac show_descriptors
    match res with
    | .ok true => (evs, headerLines mac show_descriptors ++ ls ++ [.explorationCompleted], .ok ())
    | .ok false => (evs, headerLines mac show_descriptors ++ ls ++ [.explorationFailed], .ok ())
    | .error e => (evs, headerLines mac show_descriptors ++ ls, .error e)

end ConnectBle

namespace WriteBle

/-- `parse_value` of `write_ble_characteristic.py`: in hex mode, decode
via `bytes.fromhex`; a `ValueError` is caught, an invalid-hex message
printed and `sys.exit(1)` raised.  Otherwise UTF-8-encode the string. -/
def parse_value (value_str : List Nat) (hex_mode : Bool) :
    List Line × Except PyExc (List Nat) :=
  if hex_mode then
    match PyStr.fromhex value_str with
    | some bs => ([], .ok bs)
    | none => ([.invalidHexString value_str], .error (.systemExit 1))
  else ([], .ok (PyStr.encodeUtf8 value_str))

/-- What the collaborator does in one run of `write_characteristic`. -/
structure WriteEnv where
  connectResult : Except PyExc Unit
  is_connected : Bool
  writeResult : Except PyExc Unit
  deriving Repr

/-- The suite of the `async with` block of `write_characteristic`: when
connected, a single guarded `write_gatt_char` — a caught failure prints the
message and returns `False`, success prints the confirmation and returns
`True`. -/
def writeScopeBody (env : WriteEnv) (mac char_uuid value_bytes : List Nat) :
    List Event × List Line × Except PyExc Bool :=
  if env.is_connected then
    match env.writeResult with
    | .ok () =>
      ([.writeChar char_uuid value_bytes],
       [.connectedTo mac, .writingTo char_uuid, .wroteOk char_uuid, .disconnectedFrom mac],
       .ok true)
    | .error e =>
      if e.isException then
        ([.writeChar char_uuid value_bytes],
         [.connectedTo mac, .writingTo char_uuid, .failedWrite e.msg], .ok false)
      else
        ([.writeChar char_uuid value_bytes], [.connectedTo mac, .writingTo char_uuid], .error e)
  else ([], [.failedToConnect mac], .ok false)

/-- `write_characteristic`: the connection scope under the
`except BleakError` / `except Exception` handlers. -/
def write_characteristic (env : WriteEnv) (mac char_uuid value_bytes : List Nat) :
    List Event × List Line × Except PyExc Bool :=
  let (tr, ls, res) :=
    pyCatch (withClient env.connectResult mac (writeScopeBody env mac char_uuid value_bytes))
  (tr, .attemptingConnect mac :: ls, res)

/-- The lines `main` prints before validating. -/
def headerLines (mac char_uuid value_str : List Nat) (hex_mode : Bool) : List Line :=
  [.usingMac mac, .usingUuid char_uuid, .usingValue value_str hex_mode]

/-- `main` of `write_ble_characteristic.py`: print the header, reject a MAC
address whose separator-stripped length is not 12 and return, else parse
the value (which may exit the process), run `write_characteristic` and
print the summary line. -/
def main (mac char_uuid value_str : List Nat) (hex_mode : Bool) (env : WriteEnv) :
    List Event × List Line × Except PyExc Unit :=
  if (stripSeparators mac).length ≠ 12 then
    ([], headerLines mac char_uuid value_str hex_mode ++ [.invalidMacFormat mac, .expectedMacFormat],
     .ok ())
  else
    match parse_value value_str hex_mode with
    | (pls, .error e) => ([], headerLines mac char_uuid value_str hex_mode ++ pls, .error e)
    | (pls, .ok value_bytes) =>
      let (evs, ls, res) := write_characteristic env mac char_uuid value_bytes
      match res with
      | .ok true =>
        (evs, headerLines mac char_uuid value_str hex_mode ++ pls ++ ls ++ [.writeCompleted], .ok ())
      | .ok false =>
        (evs, headerLines mac char_uuid value_str hex_mode ++ pls ++ ls ++ [.writeFailed], .ok ())
      | .error e => (evs, headerLines mac char_uuid value_str hex_mode ++ pls ++ ls, .error e)

end WriteBle

namespace PyStr

theorem isHexDigit_not_space {c : Nat} (h : isHexDigit c = true) : isSpace c = false := by
  simp only [isHexDigit, Bool.or_eq_true, Bool.and_eq_true, decide_eq_true_eq] at h
  simp only [isSpace, Bool.or_eq_false_iff, decide_eq_false_iff_not]
  omega

theorem hexVal_lt {c : Nat} (h : isHexDigit c = true) : hexVal c < 16 := by
  simp only [isHexDigit, Bool.or_eq_true, Bool.and_eq_true, decide_eq_true_eq] at h
  simp only [hexVal]
  split_ifs <;> omega

theorem hexDigitChar_hexVal {c : Nat} (h : isHexDigit c = true) :
    hexDigitChar (hexVal c) = asciiLower c := by
  simp only [isHexDigit, Bool.or_eq_true, Bool.and_eq_true, decide_eq_true_eq] at h
  simp only [hexDigitChar, hexVal, asciiLower]
  split_ifs <;> omega

theorem fromhex_some_iff (s : List Nat) (hws : ∀ c ∈ s, isSpace c = false) :
    (∃ bs, fromhex s = some bs) ↔
      (s.length % 2 = 0 ∧ ∀ c ∈ s, isHexDigit c = true) := by
  induction s using fromhex.induct with
  | case1 => simp [fromhex]
  | case2 c hsp =>
    exact absurd (hws c (by simp)) (by simp [hsp])
  | case3 c hsp =>
    have hc : isSpace c = false := by simpa using hws c (by simp)
    simp [fromhex, hc]
  | case4 c d rest hsp ih =>
    exact absurd (hws c (by simp)) (by simp [hsp])
  | case5 c d rest hsp hhex ih =>
    have hc : isHexDigit c = true := (Bool.and_eq_true _ _ |>.mp hhex).1
    have hd : isHexDigit d = true := (Bool.and_eq_true _ _ |>.mp hhex).2
    have hws' : ∀ x ∈ rest, isSpace x = false := fun x hx => hws x (by simp [hx])
    rw [show fromhex (c :: d :: rest)
        = (fromhex rest).map (fun bs => (16 * hexVal c + hexVal d) :: bs) by
      simp [fromhex, hsp, hhex]]
    constructor
    · rintro ⟨bs, hbs⟩
      rcases Option.map_eq_some'.mp hbs with ⟨bs', hbs', -⟩
      have hrest := (ih hws').mp ⟨bs', hbs'⟩
      refine ⟨by simpa using by omega, ?_⟩
      intro x hx
      simp only [List.mem_cons] at hx
      rcases hx with rfl | rfl | hx
      · exact hc
      · exact hd
      · exact hrest.2 x hx
    · rintro ⟨hlen, hall⟩
      have := (ih hws').mpr ⟨by simp at hlen; omega, fun x hx => hall x (by simp [hx])⟩
      rcases this with ⟨bs', hbs'⟩
      exact ⟨_, by rw [hbs']; rfl⟩
  | case6 c d rest hsp hhex =>
    rw [show fromhex (c :: d :: rest) = none by simp [fromhex, hsp, hhex]]
    simp only [reduceCtorEq, exists_false, false_iff, not_and]
    intro hlen hall
    exact hhex (by simp [hall c (by simp), hall d (by simp)])

theorem bytesHex_cons (b : Nat) (bs : List Nat) :
    bytesHex (b :: bs) = hexDigitChar (b / 16) :: hexDigitChar (b % 16) :: bytesHex bs := rfl

theorem fromhex_roundtrip (s bs : List Nat) (h : fromhex s = some bs) :
    bytesHex bs = (s.filter (fun c => !isSpace c)).map asciiLower := by
  induction s using fromhex.induct generalizing bs with
  | case1 =>
    simp only [fromhex, Option.some.injEq] at h
    subst h
    rfl
  | case2 c hsp =>
    rw [show fromhex [c] = some [] by simp [fromhex, hsp]] at h
    cases h
    simp [hsp, bytesHex]
  | case3 c hsp =>
    rw [show fromhex [c] = none by simp [fromhex, hsp]] at h
    cases h
  | case4 c d rest hsp ih =>
    rw [show fromhex (c :: d :: rest) = fromhex (d :: rest) by simp [fromhex, hsp]] at h
    rw [ih bs h]
    simp [hsp]
  | case5 c d rest hsp hhex ih =>
    have hc : isHexDigit c = true := (Bool.and_eq_true _ _ |>.mp hhex).1
    have hd : isHexDigit d = true := (Bool.and_eq_true _ _ |>.mp hhex).2
    rw [show fromhex (c :: d :: rest)
        = (fromhex rest).map (fun bs => (16 * hexVal c + hexVal d) :: bs) by
      simp [fromhex, hsp, hhex]] at h
    rcases Option.map_eq_some'.mp h with ⟨bs', hbs', rfl⟩
    have hvc := hexVal_lt hc
    have hvd := hexVal_lt hd
    rw [bytesHex_cons, ih bs' hbs']
    have hdiv : (16 * hexVal c + hexVal d) / 16 = hexVal c := by omega
    have hmod : (16 * hexVal c + hexVal d) % 16 = hexVal d := by omega
    rw [hdiv, hmod, hexDigitChar_hexVal hc, hexDigitChar_hexVal hd]
    have hcs : isSpace c = false := Bool.eq_false_iff.mpr hsp
    have hds : isSpace d = false := isHexDigit_not_space hd
    simp [hcs, hds]
  | case6 c d rest hsp hhex =>
    rw [show fromhex (c :: d :: rest) = none by simp [fromhex, hsp, hhex]] at h
    cases h

end PyStr

/-- Helper: a successful hex-mode `parse_value` is exactly a successful
`bytes.fromhex`. -/
theorem parse_value_hex_ok_iff_fromhex (s bs : List Nat) :
    (WriteBle.parse_value s true).2 = Except.ok bs ↔ PyStr.fromhex s = some bs := by
  unfold WriteBle.parse_value
  cases hm : PyStr.fromhex s with
  | none => simp [hm]
  | some v => simp [hm]

/-- C2 (counterexample): `parse_value("48 65", hex=true)` succeeds — CPython's
`bytes.fromhex` ignores ASCII whitespace between byte pairs — although the
input has odd length and contains a character that is not a hex digit. -/
theorem parse_value_hex_iff_counterexample :
    WriteBle.parse_value (PyStr.codes "48 65") true = ([], Except.ok [0x48, 0x65]) ∧
    ¬((PyStr.codes "48 65").length % 2 = 0 ∧
        ∀ c ∈ PyStr.codes "48 65", PyStr.isHexDigit c = true) := by
  constructor
  · rfl
  · decide

/-- C2 (amended): for inputs free of ASCII whitespace, hex-mode `parse_value`
succeeds iff the input has even length and consists only of hex digits;
whenever `bytes.fromhex` fails, `parse_value` prints the invalid-hex message
and raises `SystemExit(1)`. -/
theorem parse_value_hex_success_iff_amended :
    (∀ s : List Nat, (∀ c ∈ s, PyStr.isSpace c = false) →
        ((∃ bs, (WriteBle.parse_value s true).2 = Except.ok bs) ↔
          (s.length % 2 = 0 ∧ ∀ c ∈ s, PyStr.isHexDigit c = true))) ∧
    (∀ s : List Nat, PyStr.fromhex s = none →
        WriteBle.parse_value s true =
          ([Line.invalidHexString s], Except.error (PyExc.systemExit 1))) := by
  constructor
  · intro s hws
    rw [show (∃ bs, (WriteBle.parse_value s true).2 = Except.ok bs)
        ↔ (∃ bs, PyStr.fromhex s = some bs) by
      exact exists_congr fun bs => parse_value_hex_ok_iff_fromhex s bs]
    exact PyStr.fromhex_some_iff s hws
  · intro s hn
    unfold WriteBle.parse_value
    simp [hn]

/-- C2 witness: `parse_value("xyz", hex=true)` fails, by the amended iff. -/
theorem parse_value_hex_success_iff_amended_witness :
    ¬ ∃ bs, (WriteBle.parse_value (PyStr.codes "xyz") true).2 = Except.ok bs :=
  fun hex_ok =>
    absurd ((parse_value_hex_success_iff_amended.1 (PyStr.codes "xyz") (by decide)).mp hex_ok)
      (by decide)

/-- C3 (counterexample): on `"48 65"` hex-mode `parse_value` succeeds with
bytes `[0x48, 0x65]`, but hex-encoding those bytes gives `"4865"`, which
differs from the input even up to letter case. -/
theorem parse_value_roundtrip_counterexample :
    WriteBle.parse_value (PyStr.codes "48 65") true = ([], Except.ok [0x48, 0x65]) ∧
    (PyStr.bytesHex [0x48, 0x65]).map PyStr.asciiLower ≠
      (PyStr.codes "48 65").map PyStr.asciiLower := by
  constructor
  · rfl
  · decide

/-- Helper: ASCII lower-casing is idempotent. -/
theorem asciiLower_idem (c : Nat) : PyStr.asciiLower (PyStr.asciiLower c) = PyStr.asciiLower c := by
  simp only [PyStr.asciiLower]
  split_ifs <;> omega

/-- C3 (amended): for inputs free of ASCII whitespace on which hex-mode
`parse_value` succeeds, hex-encoding the resulting bytes restores the input
up to letter case (in general it restores the input with its ASCII
whitespace removed); and the two concrete decodings of the claim hold. -/
theorem parse_value_roundtrip_amended :
    (∀ s bs : List Nat, (∀ c ∈ s, PyStr.isSpace c = false) →
        (WriteBle.parse_value s true).2 = Except.ok bs →
        (PyStr.bytesHex bs).map PyStr.asciiLower = s.map PyStr.asciiLower) ∧
    WriteBle.parse_value (PyStr.codes "48656c6c6f") true =
      ([], Except.ok [0x48, 0x65, 0x6C, 0x6C, 0x6F]) ∧
    WriteBle.parse_value (PyStr.codes "Hello") false =
      ([], Except.ok [0x48, 0x65, 0x6C, 0x6C, 0x6F]) := by
  refine ⟨?_, rfl, rfl⟩
  intro s bs hws h
  have hfh : PyStr.fromhex s = some bs := (parse_value_hex_ok_iff_fromhex s bs).mp h
  have hrt := PyStr.fromhex_roundtrip s bs hfh
  have hfilter : s.filter (fun c => !PyStr.isSpace c) = s :=
    List.filter_eq_self.mpr (fun c hc => by simp [hws c hc])
  rw [hrt, hfilter, List.map_map]
  exact List.map_congr_left fun c _ => asciiLower_idem c

/-- C3 witness: the round trip at the concrete input `"48656c6c6f"`. -/
theorem parse_value_roundtrip_amended_witness :
    (PyStr.bytesHex [0x48, 0x65, 0x6C, 0x6C, 0x6F]).map PyStr.asciiLower =
      (PyStr.codes "48656c6c6f").map PyStr.asciiLower :=
  parse_value_roundtrip_amended.1 (PyStr.codes "48656c6c6f") [0x48, 0x65, 0x6C, 0x6C, 0x6F]
    (by decide) (by rw [parse_value_roundtrip_amended.2.1])

/-- C7: scanning degrades every failure to an empty device list — the scan
returns `[]` both when discovery finds nothing and when the library raises
(the error is logged as a line, not propagated) — and an empty list makes
the program print the no-devices message instead of crashing. -/
theorem scan_errors_degrade_to_empty :
    (∀ (t : Int) (m : List Nat),
      ListBle.scan_ble_devices t (.raises m) =
        ([], [.scanningFor t, .errorDuringScan m])) ∧
    (∀ t : Int, ListBle.scan_ble_devices t (.ok []) = ([], [.scanningFor t])) ∧
    ListBle.display_devices [] = [Line.noDevicesFound] ∧
    (∀ (argv1 : Option (List Nat)) (m : List Nat),
      Line.noDevicesFound ∈ ListBle.main argv1 (.raises m)) ∧
    (∀ argv1 : Option (List Nat), Line.noDevicesFound ∈ ListBle.main argv1 (.ok [])) := by
  refine ⟨fun t m => rfl, fun t => rfl, rfl, ?_, ?_⟩ <;>
    · intro argv1
      try intro m
      unfold ListBle.main
      rcases h : ListBle.parseScanTime argv1 with ⟨t, wl⟩
      simp [ListBle.scan_ble_devices, ListBle.display_devices]

/-- C9: the scan time defaults to 10 seconds; a non-integer or non-positive
argument falls back to 10 with the warning lines; a positive integer is
used as given; and in every case the program proceeds to scan with the
chosen duration. -/
theorem scan_time_fallback :
    ListBle.parseScanTime none = (10, []) ∧
    (∀ s : List Nat, PyStr.pyInt s = none →
      ListBle.parseScanTime (some s) =
        (10, [.invalidScanTime, .usingDefaultScanTime])) ∧
    (∀ (s : List Nat) (n : Int), PyStr.pyInt s = some n → n ≤ 0 →
      ListBle.parseScanTime (some s) =
        (10, [.invalidScanTime, .usingDefaultScanTime])) ∧
    (∀ (s : List Nat) (n : Int), PyStr.pyInt s = some n → 0 < n →
      ListBle.parseScanTime (some s) = (n, [])) ∧
    (∀ (argv1 : Option (List Nat)) (outcome : ListBle.ScanOutcome),
      Line.scanningFor (ListBle.parseScanTime argv1).1 ∈ ListBle.main argv1 outcome) := by
  refine ⟨rfl, ?_, ?_, ?_, ?_⟩
  · intro s h
    simp [ListBle.parseScanTime, h]
  · intro s n h hle
    simp [ListBle.parseScanTime, h, hle]
  · intro s n h hpos
    simp [ListBle.parseScanTime, h, show ¬n ≤ 0 by omega]
  · intro argv1 outcome
    unfold ListBle.main
    rcases h : ListBle.parseScanTime argv1 with ⟨t, wl⟩
    cases outcome <;> simp [ListBle.scan_ble_devices, h]

/-- C9 witness: the fallback at the concrete arguments `"abc"` and `"-3"`. -/
theorem scan_time_fallback_witness :
    ListBle.parseScanTime (some (PyStr.codes "abc")) =
      (10, [.invalidScanTime, .usingDefaultScanTime]) ∧
    ListBle.parseScanTime (some (PyStr.codes "-3")) =
      (10, [.invalidScanTime, .usingDefaultScanTime]) :=
  ⟨scan_time_fallback.2.1 (PyStr.codes "abc") (by decide),
   scan_time_fallback.2.2.1 (PyStr.codes "-3") (-3) (by decide) (by decide)⟩

/-- `pyCatch` never changes the event trace. -/
theorem pyCatch_fst (r : List Event × List Line × Except PyExc Bool) :
    (pyCatch r).1 = r.1 := by
  rcases r with ⟨tr, ls, res⟩
  cases res with
  | ok b => rfl
  | error e => simp only [pyCatch]; split <;> rfl

/-- `withClient` after a successful connect: the scope's trace is bracketed
by the connect and the disconnect. -/
theorem withClient_ok (mac : List Nat) (body : List Event × List Line × Except PyExc Bool) :
    withClient (Except.ok ()) mac body =
      ([Event.constructClient mac, Event.connectAttempt] ++ body.1 ++ [Event.disconnect],
       body.2.1, body.2.2) := by
  rcases body with ⟨evs, ls, res⟩
  rfl

/-- The explore scope issues no collaborator calls of its own (reads are
part of the environment, not the recorded trace). -/
theorem exploreScopeBody_fst (env : ConnectBle.ConnectEnv) (mac : List Nat) (sd : Bool) :
    (ConnectBle.exploreScopeBody env mac sd).1 = [] := by
  unfold ConnectBle.exploreScopeBody
  by_cases h : env.is_connected
  · simp only [h, if_true]
    cases ConnectBle.explore_device_services env.services sd <;> rfl
  · simp [h]

/-- The write scope issues exactly the one write call, when connected. -/
theorem writeScopeBody_fst (env : WriteBle.WriteEnv) (mac uuid vb : List Nat) :
    (WriteBle.writeScopeBody env mac uuid vb).1 =
      if env.is_connected then [Event.writeChar uuid vb] else [] := by
  unfold WriteBle.writeScopeBody
  by_cases h : env.is_connected
  · simp only [h, if_true]
    cases hw : env.writeResult with
    | ok u => cases u; rfl
    | error e => by_cases he : e.isException <;> simp [he]
  · simp [h]

/-- The trace of `connect_and_explore` in terms of the scope body. -/
theorem connect_and_explore_fst (env : ConnectBle.ConnectEnv) (mac : List Nat) (sd : Bool) :
    (ConnectBle.connect_and_explore env mac sd).1 =
      (withClient env.connectResult mac (ConnectBle.exploreScopeBody env mac sd)).1 := by
  have h := pyCatch_fst (withClient env.connectResult mac (ConnectBle.exploreScopeBody env mac sd))
  unfold ConnectBle.connect_and_explore
  rcases hp : pyCatch (withClient env.connectResult mac (ConnectBle.exploreScopeBody env mac sd))
    with ⟨tr, ls, res⟩
  rw [hp] at h
  rw [← h]

/-- The trace of `write_characteristic` in terms of the scope body. -/
theorem write_characteristic_fst (env : WriteBle.WriteEnv) (mac uuid vb : List Nat) :
    (WriteBle.write_characteristic env mac uuid vb).1 =
      (withClient env.connectResult mac (WriteBle.writeScopeBody env mac uuid vb)).1 := by
  have h := pyCatch_fst (withClient env.connectResult mac (WriteBle.writeScopeBody env mac uuid vb))
  unfold WriteBle.write_characteristic
  rcases hp : pyCatch (withClient env.connectResult mac (WriteBle.writeScopeBody env mac uuid vb))
    with ⟨tr, ls, res⟩
  rw [hp] at h
  rw [← h]

/-- After a successful connect, `connect_and_explore`'s trace is exactly
construct, connect, disconnect — whatever the body's outcome. -/
theorem connect_and_explore_trace_ok (env : ConnectBle.ConnectEnv) (mac : List Nat) (sd : Bool)
    (h : env.connectResult = Except.ok ()) :
    (ConnectBle.connect_and_explore env mac sd).1 =
      [.constructClient mac, .connectAttempt, .disconnect] := by
  rw [connect_and_explore_fst, h, withClient_ok, exploreScopeBody_fst]
  rfl

/-- After a successful connect, `write_characteristic`'s trace is construct,
connect, the write when the client reports connected, then disconnect. -/
theorem write_characteristic_trace_ok (env : WriteBle.WriteEnv) (mac uuid vb : List Nat)
    (h : env.connectResult = Except.ok ()) :
    (WriteBle.write_characteristic env mac uuid vb).1 =
      [Event.constructClient mac, Event.connectAttempt] ++
        (if env.is_connected then [Event.writeChar uuid vb] else []) ++ [Event.disconnect] := by
  rw [write_characteristic_fst, h, withClient_ok, writeScopeBody_fst]

/-- An invalid MAC address makes `main` of the explore script print the
format message and return before touching the library. -/
theorem ConnectBle_main_invalid (mac : List Nat) (sd : Bool) (env : ConnectBle.ConnectEnv)
    (h : (stripSeparators mac).length ≠ 12) :
    ConnectBle.main mac sd env =
      ([], ConnectBle.headerLines mac sd ++ [.invalidMacFormat mac, .expectedMacFormat],
       Except.ok ()) := by
  unfold ConnectBle.main
  rw [if_pos h]

/-- An invalid MAC address makes `main` of the write script print the format
message and return before touching the library. -/
theorem WriteBle_main_invalid (mac uuid value : List Nat) (hx : Bool) (env : WriteBle.WriteEnv)
    (h : (stripSeparators mac).length ≠ 12) :
    WriteBle.main mac uuid value hx env =
      ([], WriteBle.headerLines mac uuid value hx ++ [.invalidMacFormat mac, .expectedMacFormat],
       Except.ok ()) := by
  unfold WriteBle.main
  rw [if_pos h]

/-- With a valid MAC address, the explore script's trace is the flow's. -/
theorem ConnectBle_main_fst_valid (mac : List Nat) (sd : Bool) (env : ConnectBle.ConnectEnv)
    (h : (stripSeparators mac).length = 12) :
    (ConnectBle.main mac sd env).1 = (ConnectBle.connect_and_explore env mac sd).1 := by
  unfold ConnectBle.main
  rw [if_neg (by omega)]
  rcases hce : ConnectBle.connect_and_explore env mac sd with ⟨evs, ls, res⟩
  rcases res with e | b
  · rfl
  · cases b <;> rfl

/-- With a valid MAC address and a parse failure, the write script exits
before touching the library. -/
theorem WriteBle_main_parse_err (mac uuid value : List Nat) (hx : Bool)
    (env : WriteBle.WriteEnv) (pls : List Line) (e : PyExc)
    (h : (stripSeparators mac).length = 12)
    (hp : WriteBle.parse_value value hx = (pls, Except.error e)) :
    WriteBle.main mac uuid value hx env =
      ([], WriteBle.headerLines mac uuid value hx ++ pls, Except.error e) := by
  unfold WriteBle.main
  rw [if_neg (by omega), hp]

/-- With a valid MAC address and a parsed value, the write script's trace is
the flow's. -/
theorem WriteBle_main_fst_parse_ok (mac uuid value : List Nat) (hx : Bool)
    (env : WriteBle.WriteEnv) (pls : List Line) (vb : List Nat)
    (h : (stripSeparators mac).length = 12)
    (hp : WriteBle.parse_value value hx = (pls, Except.ok vb)) :
    (WriteBle.main mac uuid value hx env).1 =
      (WriteBle.write_characteristic env mac uuid vb).1 := by
  unfold WriteBle.main
  rw [if_neg (by omega), hp]
  rcases hce : WriteBle.write_characteristic env mac uuid vb with ⟨evs, ls, res⟩
  rcases res with e | b
  · simp [hce]
  · cases b <;> simp [hce]
/-- A `bytes.fromhex` failure makes `parse_value` print the invalid-hex
message and raise `SystemExit(1)`. -/
theorem parse_value_none (s : List Nat) (hn : PyStr.fromhex s = none) :
    WriteBle.parse_value s true =
      ([Line.invalidHexString s], Except.error (PyExc.systemExit 1)) := by
  unfold WriteBle.parse_value
  simp [hn]

/-- C1: both programs accept a MAC address exactly when the string with all
`:` and `-` separators removed has length 12 — the characters need not be
hex digits — and on rejection print the invalid-format lines, return
normally, and never touch the library (empty event trace). -/
theorem mac_validation_accepts_iff_length_12
    (mac uuid value : List Nat) (sd hx : Bool)
    (cenv : ConnectBle.ConnectEnv) (wenv : WriteBle.WriteEnv) :
    ((stripSeparators mac).length = 12 →
      Event.connectAttempt ∈ (ConnectBle.main mac sd cenv).1 ∧
      (∀ pls vb, WriteBle.parse_value value hx = (pls, Except.ok vb) →
        Event.connectAttempt ∈ (WriteBle.main mac uuid value hx wenv).1)) ∧
    ((stripSeparators mac).length ≠ 12 →
      ConnectBle.main mac sd cenv =
        ([], ConnectBle.headerLines mac sd ++ [.invalidMacFormat mac, .expectedMacFormat],
         Except.ok ()) ∧
      WriteBle.main mac uuid value hx wenv =
        ([], WriteBle.headerLines mac uuid value hx ++ [.invalidMacFormat mac, .expectedMacFormat],
         Except.ok ())) := by
  constructor
  · intro h12
    constructor
    · rw [ConnectBle_main_fst_valid mac sd cenv h12, connect_and_explore_fst]
      cases hc : cenv.connectResult with
      | ok u => cases u; rw [withClient_ok]; simp
      | error e => simp [withClient]
    · intro pls vb hp
      rw [WriteBle_main_fst_parse_ok mac uuid value hx wenv pls vb h12 hp,
          write_characteristic_fst]
      cases hc : wenv.connectResult with
      | ok u => cases u; rw [withClient_ok]; simp
      | error e => simp [withClient]
  · intro h12
    exact ⟨ConnectBle_main_invalid mac sd cenv h12,
           WriteBle_main_invalid mac uuid value hx wenv h12⟩

/-- C1 witness: `"ZZ:ZZ:ZZ:ZZ:ZZ:ZZ"` (12 non-hex characters) is accepted
and reaches the connect call; `"12:34"` is rejected with the format lines
and an empty trace. -/
theorem mac_validation_accepts_iff_length_12_witness :
    Event.connectAttempt ∈
      (ConnectBle.main (PyStr.codes "ZZ:ZZ:ZZ:ZZ:ZZ:ZZ") false
        ⟨Except.ok (), true, []⟩).1 ∧
    ConnectBle.main (PyStr.codes "12:34") false ⟨Except.ok (), true, []⟩ =
      ([], ConnectBle.headerLines (PyStr.codes "12:34") false ++
        [.invalidMacFormat (PyStr.codes "12:34"), .expectedMacFormat], Except.ok ()) :=
  ⟨(mac_validation_accepts_iff_length_12 (PyStr.codes "ZZ:ZZ:ZZ:ZZ:ZZ:ZZ") [] [] false false
      ⟨Except.ok (), true, []⟩ ⟨Except.ok (), true, Except.ok ()⟩).1 (by decide) |>.1,
   (mac_validation_accepts_iff_length_12 (PyStr.codes "12:34") [] [] false false
      ⟨Except.ok (), true, []⟩ ⟨Except.ok (), true, Except.ok ()⟩).2 (by decide) |>.1⟩

/-- C4: whenever a run of the explore or write program successfully opens a
connection (the library connect succeeds and the connect call appears in
the run's trace), the disconnect entry point appears in the trace exactly
once — whatever the scope body then does: normal completion, a raised
exception, or cancellation delivered at an await point. -/
theorem disconnect_once_per_successful_connect
    (mac uuid value : List Nat) (sd hx : Bool)
    (cenv : ConnectBle.ConnectEnv) (wenv : WriteBle.WriteEnv) :
    (cenv.connectResult = Except.ok () →
      Event.connectAttempt ∈ (ConnectBle.main mac sd cenv).1 →
      (ConnectBle.main mac sd cenv).1.count Event.disconnect = 1) ∧
    (wenv.connectResult = Except.ok () →
      Event.connectAttempt ∈ (WriteBle.main mac uuid value hx wenv).1 →
      (WriteBle.main mac uuid value hx wenv).1.count Event.disconnect = 1) := by
  constructor
  · intro hc hmem
    by_cases h12 : (stripSeparators mac).length = 12
    · rw [ConnectBle_main_fst_valid mac sd cenv h12, connect_and_explore_trace_ok cenv mac sd hc]
      simp [List.count_cons]
    · rw [ConnectBle_main_invalid mac sd cenv h12] at hmem
      simp at hmem
  · intro hc hmem
    by_cases h12 : (stripSeparators mac).length = 12
    · rcases hp : WriteBle.parse_value value hx with ⟨pls, pres⟩
      rcases pres with e | vb
      · rw [WriteBle_main_parse_err mac uuid value hx wenv pls e h12 hp] at hmem
        simp at hmem
      · rw [WriteBle_main_fst_parse_ok mac uuid value hx wenv pls vb h12 hp,
            write_characteristic_trace_ok wenv mac uuid vb hc]
        by_cases hic : wenv.is_connected <;>
          simp [hic, List.count_cons, List.count_append]
    · rw [WriteBle_main_invalid mac uuid value hx wenv h12] at hmem
      simp at hmem

/-- C4 witness: one disconnect in a cancelled exploration run and in a
write run whose write raises cancellation. -/
theorem disconnect_once_per_successful_connect_witness :
    (ConnectBle.main (PyStr.codes "A5:C2:37:5B:13:BA") false
      ⟨Except.ok (), true,
       [⟨PyStr.codes "180f", [], 1,
         [⟨PyStr.codes "2a19", [], 2, [PyStr.codes "read"],
           Except.error PyExc.cancelled, []⟩]⟩]⟩).1.count Event.disconnect = 1 ∧
    (WriteBle.main (PyStr.codes "A5:C2:37:5B:13:BA") (PyStr.codes "2a19") (PyStr.codes "48")
      true ⟨Except.ok (), true, Except.error PyExc.cancelled⟩).1.count Event.disconnect = 1 :=
  ⟨(disconnect_once_per_successful_connect (PyStr.codes "A5:C2:37:5B:13:BA")
      (PyStr.codes "2a19") (PyStr.codes "48") false true
      ⟨Except.ok (), true,
       [⟨PyStr.codes "180f", [], 1,
         [⟨PyStr.codes "2a19", [], 2, [PyStr.codes "read"],
           Except.error PyExc.cancelled, []⟩]⟩]⟩
      ⟨Except.ok (), true, Except.error PyExc.cancelled⟩).1 rfl (by decide),
   (disconnect_once_per_successful_connect (PyStr.codes "A5:C2:37:5B:13:BA")
      (PyStr.codes "2a19") (PyStr.codes "48") false true
      ⟨Except.ok (), true,
       [⟨PyStr.codes "180f", [], 1,
         [⟨PyStr.codes "2a19", [], 2, [PyStr.codes "read"],
           Except.error PyExc.cancelled, []⟩]⟩]⟩
      ⟨Except.ok (), true, Except.error PyExc.cancelled⟩).2 rfl (by decide)⟩
/-- C5: when the library raises an exception during connection — a
`BleakError` or any other `Exception` — the connection flows catch it,
print its report line, return the overall-failure value `false`, attempt
the connect exactly once (no retry), and `main` completes normally, so no
exception escapes to the top level. -/
theorem connect_failure_returns_false
    (cenv : ConnectBle.ConnectEnv) (wenv : WriteBle.WriteEnv)
    (mac uuid vb : List Nat) (sd : Bool) (e : PyExc)
    (hc : cenv.connectResult = Except.error e)
    (hw : wenv.connectResult = Except.error e)
    (he : e.isException = true) :
    ConnectBle.connect_and_explore cenv mac sd =
      ([.constructClient mac, .connectAttempt],
       [.attemptingConnect mac, e.reportLine], Except.ok false) ∧
    WriteBle.write_characteristic wenv mac uuid vb =
      ([.constructClient mac, .connectAttempt],
       [.attemptingConnect mac, e.reportLine], Except.ok false) ∧
    (ConnectBle.main mac sd cenv).2.2 = Except.ok () := by
  have h1 : ConnectBle.connect_and_explore cenv mac sd =
      ([.constructClient mac, .connectAttempt],
       [.attemptingConnect mac, e.reportLine], Except.ok false) := by
    unfold ConnectBle.connect_and_explore
    rw [hc]
    simp [withClient, pyCatch, he]
  refine ⟨h1, ?_, ?_⟩
  · unfold WriteBle.write_characteristic
    rw [hw]
    simp [withClient, pyCatch, he]
  · by_cases h12 : (stripSeparators mac).length = 12
    · unfold ConnectBle.main
      rw [if_neg (by omega), h1]
    · rw [ConnectBle_main_invalid mac sd cenv h12]

/-- C5 witness: a concrete Bluetooth error during connect. -/
theorem connect_failure_returns_false_witness :
    ConnectBle.connect_and_explore
      ⟨Except.error (PyExc.bleakError (PyStr.codes "device unreachable")), false, []⟩
      (PyStr.codes "A5:C2:37:5B:13:BA") false =
      ([.constructClient (PyStr.codes "A5:C2:37:5B:13:BA"), .connectAttempt],
       [.attemptingConnect (PyStr.codes "A5:C2:37:5B:13:BA"),
        (PyExc.bleakError (PyStr.codes "device unreachable")).reportLine],
       Except.ok false) :=
  (connect_failure_returns_false
    ⟨Except.error (PyExc.bleakError (PyStr.codes "device unreachable")), false, []⟩
    ⟨Except.error (PyExc.bleakError (PyStr.codes "device unreachable")), false, Except.ok ()⟩
    (PyStr.codes "A5:C2:37:5B:13:BA") [] [] false
    (PyExc.bleakError (PyStr.codes "device unreachable")) rfl rfl rfl).1

/-- C8: after a failed validation — a MAC address whose stripped length is
not 12, or (in the write program) a value that fails to parse — the event
trace is empty: no `BleakClient` is constructed and no connect call is
issued.  Contrapositively, any event in a run's trace means validation
passed. -/
theorem validation_failure_prevents_connection
    (mac uuid value : List Nat) (sd hx : Bool)
    (cenv : ConnectBle.ConnectEnv) (wenv : WriteBle.WriteEnv) :
    ((stripSeparators mac).length ≠ 12 →
      (ConnectBle.main mac sd cenv).1 = [] ∧ (WriteBle.main mac uuid value hx wenv).1 = []) ∧
    (∀ pls e, WriteBle.parse_value value hx = (pls, Except.error e) →
      (WriteBle.main mac uuid value hx wenv).1 = []) ∧
    (∀ ev, ev ∈ (ConnectBle.main mac sd cenv).1 → (stripSeparators mac).length = 12) ∧
    (∀ ev, ev ∈ (WriteBle.main mac uuid value hx wenv).1 →
      (stripSeparators mac).length = 12 ∧
      ∃ vb, (WriteBle.parse_value value hx).2 = Except.ok vb) := by
  refine ⟨?_, ?_, ?_, ?_⟩
  · intro h12
    rw [ConnectBle_main_invalid mac sd cenv h12, WriteBle_main_invalid mac uuid value hx wenv h12]
    exact ⟨rfl, rfl⟩
  · intro pls e hp
    by_cases h12 : (stripSeparators mac).length = 12
    · rw [WriteBle_main_parse_err mac uuid value hx wenv pls e h12 hp]
    · rw [WriteBle_main_invalid mac uuid value hx wenv h12]
  · intro ev hev
    by_contra h12
    rw [ConnectBle_main_invalid mac sd cenv h12] at hev
    simp at hev
  · intro ev hev
    by_cases h12 : (stripSeparators mac).length = 12
    · refine ⟨h12, ?_⟩
      rcases hp : WriteBle.parse_value value hx with ⟨pls, pres⟩
      rcases pres with e | vb
      · rw [WriteBle_main_parse_err mac uuid value hx wenv pls e h12 hp] at hev
        simp at hev
      · exact ⟨vb, rfl⟩
    · rw [WriteBle_main_invalid mac uuid value hx wenv h12] at hev
      simp at hev

/-- C8 witness: with the invalid address `"12:34"` both programs produce an
empty trace. -/
theorem validation_failure_prevents_connection_witness :
    (ConnectBle.main (PyStr.codes "12:34") false ⟨Except.ok (), true, []⟩).1 = [] ∧
    (WriteBle.main (PyStr.codes "12:34") (PyStr.codes "2a19") (PyStr.codes "48") true
      ⟨Except.ok (), true, Except.ok ()⟩).1 = [] :=
  (validation_failure_prevents_connection (PyStr.codes "12:34") (PyStr.codes "2a19")
    (PyStr.codes "48") false true ⟨Except.ok (), true, []⟩
    ⟨Except.ok (), true, Except.ok ()⟩).1 (by decide)

/-- C10: the two validation failures end the process differently — an
invalid MAC address makes `main` print the error and return normally
(process exit status 0), while an invalid hex value in the write program
raises `SystemExit(1)` out of `parse_value` (exit status 1) — and both
happen before any connection attempt. -/
theorem validation_exit_statuses
    (mac uuid value : List Nat) (sd : Bool)
    (cenv : ConnectBle.ConnectEnv) (wenv : WriteBle.WriteEnv) :
    ((stripSeparators mac).length ≠ 12 →
      runProcess (ConnectBle.main mac sd cenv).2.2 = 0 ∧
      Line.invalidMacFormat mac ∈ (ConnectBle.main mac sd cenv).2.1 ∧
      (ConnectBle.main mac sd cenv).1 = []) ∧
    ((stripSeparators mac).length = 12 → PyStr.fromhex value = none →
      runProcess (WriteBle.main mac uuid value true wenv).2.2 = 1 ∧
      (WriteBle.main mac uuid value true wenv).1 = []) := by
  constructor
  · intro h12
    rw [ConnectBle_main_invalid mac sd cenv h12]
    refine ⟨rfl, ?_, rfl⟩
    simp
  · intro h12 hf
    rw [WriteBle_main_parse_err mac uuid value true wenv _ _ h12 (parse_value_none value hf)]
    exact ⟨rfl, rfl⟩

/-- C10 witness: exit 0 for the bad address `"12:34"`, exit 1 for the bad
hex value `"xyz"` with a well-formed address. -/
theorem validation_exit_statuses_witness :
    runProcess (ConnectBle.main (PyStr.codes "12:34") false ⟨Except.ok (), true, []⟩).2.2 = 0 ∧
    runProcess (WriteBle.main (PyStr.codes "A5:C2:37:5B:13:BA") (PyStr.codes "2a19")
      (PyStr.codes "xyz") true ⟨Except.ok (), true, Except.ok ()⟩).2.2 = 1 :=
  ⟨((validation_exit_statuses (PyStr.codes "12:34") (PyStr.codes "2a19") (PyStr.codes "xyz")
      false ⟨Except.ok (), true, []⟩ ⟨Except.ok (), true, Except.ok ()⟩).1 (by decide)).1,
   ((validation_exit_statuses (PyStr.codes "A5:C2:37:5B:13:BA") (PyStr.codes "2a19")
      (PyStr.codes "xyz") false ⟨Except.ok (), true, []⟩
      ⟨Except.ok (), true, Except.ok ()⟩).2 (by decide) (by decide)).1⟩
/-- Value renderings contain no characteristic headers. -/
theorem charUuidsOf_renderValue (v : List Nat) :
    ConnectBle.charUuidsOf (ConnectBle.renderValue v) = [] := by
  unfold ConnectBle.renderValue
  cases PyStr.utf8Decode v <;> rfl

/-- Value renderings contain no service headers. -/
theorem serviceUuidsOf_renderValue (v : List Nat) :
    ConnectBle.serviceUuidsOf (ConnectBle.renderValue v) = [] := by
  unfold ConnectBle.renderValue
  cases PyStr.utf8Decode v <;> rfl

/-- One catchable descriptor renders to a header plus either its value or
the inline unreadable placeholder. -/
theorem renderDesc_ok (d : ConnectBle.Descriptor) (h : ConnectBle.descCatchable d = true) :
    ∃ ls, ConnectBle.renderDesc d = Except.ok ls ∧
      ConnectBle.charUuidsOf ls = [] ∧ ConnectBle.serviceUuidsOf ls = [] ∧
      (∀ e, d.readResult = Except.error e → Line.descCouldNotRead e.msg ∈ ls) := by
  cases hr : d.readResult with
  | ok v =>
    refine ⟨[Line.descHeader d.uuid d.description d.handle] ++ ConnectBle.renderDescValue v,
      ?_, ?_, ?_, ?_⟩
    · simp only [ConnectBle.renderDesc, hr]
      rfl
    · unfold ConnectBle.charUuidsOf ConnectBle.renderDescValue
      cases PyStr.utf8Decode v <;> rfl
    · unfold ConnectBle.serviceUuidsOf ConnectBle.renderDescValue
      cases PyStr.utf8Decode v <;> rfl
    · intro e he
      cases he
  | error e' =>
    have he' : e'.isException = true := by
      unfold ConnectBle.descCatchable catchableErr at h
      rw [hr] at h
      exact h
    refine ⟨[Line.descHeader d.uuid d.description d.handle, Line.descCouldNotRead e'.msg],
      ?_, rfl, rfl, ?_⟩
    · simp only [ConnectBle.renderDesc, hr, he', if_true]
      rfl
    · intro e he
      cases he
      simp

/-- A list of catchable descriptors renders in full, every read failure
recorded inline. -/
theorem renderDescs_ok (ds : List ConnectBle.Descriptor)
    (h : ds.all ConnectBle.descCatchable = true) :
    ∃ ls, ConnectBle.renderDescs ds = Except.ok ls ∧
      ConnectBle.charUuidsOf ls = [] ∧ ConnectBle.serviceUuidsOf ls = [] ∧
      ∀ d ∈ ds, ∀ e, d.readResult = Except.error e → Line.descCouldNotRead e.msg ∈ ls := by
  induction ds with
  | nil => exact ⟨[], rfl, rfl, rfl, by simp⟩
  | cons d ds ih =>
    rw [List.all_cons, Bool.and_eq_true] at h
    obtain ⟨ls1, h1, hc1, hs1, hm1⟩ := renderDesc_ok d h.1
    obtain ⟨ls2, h2, hc2, hs2, hm2⟩ := ih h.2
    refine ⟨ls1 ++ ls2, ?_, ?_, ?_, ?_⟩
    · simp only [ConnectBle.renderDescs, h1, h2]
      rfl
    · unfold ConnectBle.charUuidsOf at hc1 hc2 ⊢
      rw [List.filterMap_append, hc1, hc2]
      rfl
    · unfold ConnectBle.serviceUuidsOf at hs1 hs2 ⊢
      rw [List.filterMap_append, hs1, hs2]
      rfl
    · intro d' hd' e he
      rcases List.mem_cons.mp hd' with rfl | hd'
      · exact List.mem_append_left _ (hm1 e he)
      · exact List.mem_append_right _ (hm2 d' hd' e he)
/-- A catchable value read yields lines without headers, a failure being
recorded as the inline placeholder. -/
theorem readValuePart_ok (c : ConnectBle.Characteristic)
    (h : (!(c.properties.contains (PyStr.codes "read")) ||
      catchableErr c.readResult) = true) :
    ∃ rl, ConnectBle.readValuePart c = Except.ok rl ∧
      ConnectBle.charUuidsOf rl = [] ∧ ConnectBle.serviceUuidsOf rl = [] ∧
      (c.properties.contains (PyStr.codes "read") = true →
        ∀ e, c.readResult = Except.error e → Line.couldNotRead e.msg ∈ rl) := by
  unfold ConnectBle.readValuePart
  by_cases hc : c.properties.contains (PyStr.codes "read") = true
  · rw [if_pos hc]
    cases hr : c.readResult with
    | ok v =>
      exact ⟨ConnectBle.renderValue v, rfl, charUuidsOf_renderValue v,
        serviceUuidsOf_renderValue v, fun _ e he => by cases he⟩
    | error e' =>
      have he' : e'.isException = true := by
        rw [hc, hr] at h
        simpa [catchableErr] using h
      refine ⟨[Line.couldNotRead e'.msg], ?_, rfl, rfl, ?_⟩
      · simp only [he', if_true]
        rfl
      · intro _ e he
        cases he
        simp
  · rw [if_neg hc]
    exact ⟨[], rfl, rfl, rfl, fun hcc => absurd hcc hc⟩

/-- A catchable descriptor section yields lines without headers, every
failed descriptor read recorded inline. -/
theorem descPart_ok (sd : Bool) (c : ConnectBle.Characteristic)
    (h : (!sd || c.descriptors.all ConnectBle.descCatchable) = true) :
    ∃ dl, ConnectBle.descPart sd c = Except.ok dl ∧
      ConnectBle.charUuidsOf dl = [] ∧ ConnectBle.serviceUuidsOf dl = [] ∧
      (sd = true → ∀ d ∈ c.descriptors, ∀ e, d.readResult = Except.error e →
        Line.descCouldNotRead e.msg ∈ dl) := by
  unfold ConnectBle.descPart
  cases sd with
  | false => exact ⟨[], rfl, rfl, rfl, fun hh => by cases hh⟩
  | true =>
    have hall : c.descriptors.all ConnectBle.descCatchable = true := by simpa using h
    by_cases hnil : c.descriptors = []
    · refine ⟨[], ?_, rfl, rfl, ?_⟩
      · simp only [if_true, hnil, if_pos]
        rfl
      · intro _ d hd
        rw [hnil] at hd
        cases hd
    · obtain ⟨inner, hi, hci, hsi, hmi⟩ := renderDescs_ok c.descriptors hall
      refine ⟨Line.descriptorsCount c.descriptors.length :: inner, ?_, ?_, ?_, ?_⟩
      · simp only [if_true, if_neg hnil, hi]
        rfl
      · simpa [ConnectBle.charUuidsOf] using hci
      · simpa [ConnectBle.serviceUuidsOf] using hsi
      · intro _ d hd e he
        exact List.mem_cons_of_mem _ (hmi d hd e he)

/-- One catchable characteristic renders to exactly one characteristic
header plus headerless detail lines, all its read failures inline. -/
theorem renderChar_ok (sd : Bool) (c : ConnectBle.Characteristic)
    (h : ConnectBle.charCatchable sd c = true) :
    ∃ ls, ConnectBle.renderChar sd c = Except.ok ls ∧
      ConnectBle.charUuidsOf ls = [c.uuid] ∧ ConnectBle.serviceUuidsOf ls = [] ∧
      (c.properties.contains (PyStr.codes "read") = true →
        ∀ e, c.readResult = Except.error e → Line.couldNotRead e.msg ∈ ls) ∧
      (sd = true → ∀ d ∈ c.descriptors, ∀ e, d.readResult = Except.error e →
        Line.descCouldNotRead e.msg ∈ ls) := by
  unfold ConnectBle.charCatchable at h
  rw [Bool.and_eq_true] at h
  obtain ⟨rl, hrl, hcrl, hsrl, hmrl⟩ := readValuePart_ok c h.1
  obtain ⟨dl, hdl, hcdl, hsdl, hmdl⟩ := descPart_ok sd c h.2
  refine ⟨[Line.charHeader c.uuid c.description c.handle c.properties] ++ rl ++ dl,
    ?_, ?_, ?_, ?_, ?_⟩
  · simp only [ConnectBle.renderChar, hrl, hdl]
    rfl
  · unfold ConnectBle.charUuidsOf at hcrl hcdl ⊢
    rw [List.filterMap_append, List.filterMap_append, hcrl, hcdl]
    rfl
  · unfold ConnectBle.serviceUuidsOf at hsrl hsdl ⊢
    rw [List.filterMap_append, List.filterMap_append, hsrl, hsdl]
    rfl
  · intro hcc e he
    exact List.mem_append_left _ (List.mem_append_right _ (hmrl hcc e he))
  · intro hsd d hd e he
    exact List.mem_append_right _ (hmdl hsd d hd e he)

/-- A list of catchable characteristics renders in full and in order. -/
theorem renderChars_ok (sd : Bool) (cs : List ConnectBle.Characteristic)
    (h : cs.all (ConnectBle.charCatchable sd) = true) :
    ∃ ls, ConnectBle.renderChars sd cs = Except.ok ls ∧
      ConnectBle.charUuidsOf ls = cs.map ConnectBle.Characteristic.uuid ∧
      ConnectBle.serviceUuidsOf ls = [] ∧
      (∀ c ∈ cs, c.properties.contains (PyStr.codes "read") = true →
        ∀ e, c.readResult = Except.error e → Line.couldNotRead e.msg ∈ ls) ∧
      (sd = true → ∀ c ∈ cs, ∀ d ∈ c.descriptors, ∀ e, d.readResult = Except.error e →
        Line.descCouldNotRead e.msg ∈ ls) := by
  induction cs with
  | nil => exact ⟨[], rfl, rfl, rfl, by simp, by simp⟩
  | cons c cs ih =>
    rw [List.all_cons, Bool.and_eq_true] at h
    obtain ⟨ls1, h1, hc1, hs1, hm1, hd1⟩ := renderChar_ok sd c h.1
    obtain ⟨ls2, h2, hc2, hs2, hm2, hd2⟩ := ih h.2
    refine ⟨ls1 ++ ls2, ?_, ?_, ?_, ?_, ?_⟩
    · simp only [ConnectBle.renderChars, h1, h2]
      rfl
    · unfold ConnectBle.charUuidsOf at hc1 hc2 ⊢
      rw [List.filterMap_append, hc1, hc2, List.map_cons]
      rfl
    · unfold ConnectBle.serviceUuidsOf at hs1 hs2 ⊢
      rw [List.filterMap_append, hs1, hs2]
      rfl
    · intro c' hc' hcc e he
      rcases List.mem_cons.mp hc' with rfl | hc'
      · exact List.mem_append_left _ (hm1 hcc e he)
      · exact List.mem_append_right _ (hm2 c' hc' hcc e he)
    · intro hsd c' hc' d hd e he
      rcases List.mem_cons.mp hc' with rfl | hc'
      · exact List.mem_append_left _ (hd1 hsd d hd e he)
      · exact List.mem_append_right _ (hd2 hsd c' hc' d hd e he)

/-- One service whose characteristics are all catchable renders to exactly
one service header plus its characteristics' lines. -/
theorem renderService_ok (sd : Bool) (s : ConnectBle.Service)
    (h : s.characteristics.all (ConnectBle.charCatchable sd) = true) :
    ∃ ls, ConnectBle.renderService sd s = Except.ok ls ∧
      ConnectBle.serviceUuidsOf ls = [s.uuid] ∧
      ConnectBle.charUuidsOf ls = s.characteristics.map ConnectBle.Characteristic.uuid ∧
      (∀ c ∈ s.characteristics, c.properties.contains (PyStr.codes "read") = true →
        ∀ e, c.readResult = Except.error e → Line.couldNotRead e.msg ∈ ls) ∧
      (sd = true → ∀ c ∈ s.characteristics, ∀ d ∈ c.descriptors,
        ∀ e, d.readResult = Except.error e → Line.descCouldNotRead e.msg ∈ ls) := by
  by_cases hnil : s.characteristics = []
  · refine ⟨[Line.serviceHeader s.uuid s.description s.handle, Line.noCharacteristics],
      ?_, rfl, ?_, ?_, ?_⟩
    · simp only [ConnectBle.renderService, hnil, if_pos]
      rfl
    · rw [hnil]
      rfl
    · intro c hc
      rw [hnil] at hc
      cases hc
    · intro _ c hc
      rw [hnil] at hc
      cases hc
  · obtain ⟨inner, hi, hci, hsi, hmi, hdi⟩ := renderChars_ok sd s.characteristics h
    refine ⟨Line.serviceHeader s.uuid s.description s.handle ::
        Line.characteristicsCount s.characteristics.length :: inner, ?_, ?_, ?_, ?_, ?_⟩
    · simp only [ConnectBle.renderService, if_neg hnil, hi]
      rfl
    · simpa [ConnectBle.serviceUuidsOf] using hsi
    · simpa [ConnectBle.charUuidsOf] using hci
    · intro c hc hcc e he
      exact List.mem_cons_of_mem _ (List.mem_cons_of_mem _ (hmi c hc hcc e he))
    · intro hsd c hc d hd e he
      exact List.mem_cons_of_mem _ (List.mem_cons_of_mem _ (hdi hsd c hc d hd e he))

/-- A list of services, all catchable, renders in full and in order. -/
theorem renderServices_ok (sd : Bool) (ss : List ConnectBle.Service)
    (h : ConnectBle.servicesCatchable sd ss = true) :
    ∃ ls, ConnectBle.renderServices sd ss = Except.ok ls ∧
      ConnectBle.serviceUuidsOf ls = ss.map ConnectBle.Service.uuid ∧
      ConnectBle.charUuidsOf ls =
        (ss.map (fun s => s.characteristics.map ConnectBle.Characteristic.uuid)).flatten ∧
      (∀ s ∈ ss, ∀ c ∈ s.characteristics,
        c.properties.contains (PyStr.codes "read") = true →
        ∀ e, c.readResult = Except.error e → Line.couldNotRead e.msg ∈ ls) ∧
      (sd = true → ∀ s ∈ ss, ∀ c ∈ s.characteristics, ∀ d ∈ c.descriptors,
        ∀ e, d.readResult = Except.error e → Line.descCouldNotRead e.msg ∈ ls) := by
  unfold ConnectBle.servicesCatchable at h
  induction ss with
  | nil => exact ⟨[], rfl, rfl, rfl, by simp, by simp⟩
  | cons s ss ih =>
    rw [List.all_cons, Bool.and_eq_true] at h
    obtain ⟨ls1, h1, hs1, hc1, hm1, hd1⟩ := renderService_ok sd s h.1
    obtain ⟨ls2, h2, hs2, hc2, hm2, hd2⟩ := ih h.2
    refine ⟨ls1 ++ ls2, ?_, ?_, ?_, ?_, ?_⟩
    · simp only [ConnectBle.renderServices, h1, h2]
      rfl
    · unfold ConnectBle.serviceUuidsOf at hs1 hs2 ⊢
      rw [List.filterMap_append, hs1, hs2, List.map_cons]
      rfl
    · unfold ConnectBle.charUuidsOf at hc1 hc2 ⊢
      rw [List.filterMap_append, hc1, hc2, List.map_cons, List.flatten_cons]
    · intro s' hs' c hc hcc e he
      rcases List.mem_cons.mp hs' with rfl | hs'
      · exact List.mem_append_left _ (hm1 c hc hcc e he)
      · exact List.mem_append_right _ (hm2 s' hs' c hc hcc e he)
    · intro hsd s' hs' c hc d hd e he
      rcases List.mem_cons.mp hs' with rfl | hs'
      · exact List.mem_append_left _ (hd1 hsd c hc d hd e he)
      · exact List.mem_append_right _ (hd2 hsd s' hs' c hc d hd e he)
/-- C6: when every read attempted during enumeration either succeeds or
raises a caught exception, `explore_device_services` completes without
aborting: it reports every service and every characteristic, in order, and
each failed characteristic read (and, with descriptor display on, each
failed descriptor read) appears inline as an unreadable placeholder
carrying the error detail. -/
theorem unreadable_items_do_not_abort (services : List ConnectBle.Service) (sd : Bool)
    (h : ConnectBle.servicesCatchable sd services = true) :
    ∃ ls, ConnectBle.explore_device_services services sd = Except.ok ls ∧
      ConnectBle.serviceUuidsOf ls = services.map ConnectBle.Service.uuid ∧
      ConnectBle.charUuidsOf ls =
        (services.map (fun s => s.characteristics.map ConnectBle.Characteristic.uuid)).flatten ∧
      (∀ s ∈ services, ∀ c ∈ s.characteristics,
        c.properties.contains (PyStr.codes "read") = true →
        ∀ e, c.readResult = Except.error e → Line.couldNotRead e.msg ∈ ls) ∧
      (sd = true → ∀ s ∈ services, ∀ c ∈ s.characteristics, ∀ d ∈ c.descriptors,
        ∀ e, d.readResult = Except.error e → Line.descCouldNotRead e.msg ∈ ls) := by
  by_cases hnil : services = []
  · subst hnil
    exact ⟨[Line.noServices], rfl, rfl, rfl, by simp, by simp⟩
  · obtain ⟨inner, hi, hsi, hci, hmi, hdi⟩ := renderServices_ok sd services h
    refine ⟨Line.foundServices services.length :: inner, ?_, ?_, ?_, ?_, ?_⟩
    · unfold ConnectBle.explore_device_services
      simp only [if_neg hnil, hi]
      rfl
    · simpa [ConnectBle.serviceUuidsOf] using hsi
    · simpa [ConnectBle.charUuidsOf] using hci
    · intro s hs c hc hcc e he
      exact List.mem_cons_of_mem _ (hmi s hs c hc hcc e he)
    · intro hsd s hs c hc d hd e he
      exact List.mem_cons_of_mem _ (hdi hsd s hs c hc d hd e he)

/-- C6 witness: a service of three readable characteristics whose middle
read raises a caught Bluetooth error still enumerates all three, with the
inline placeholder present. -/
theorem unreadable_items_do_not_abort_witness :
    ∃ ls, ConnectBle.explore_device_services
        [⟨PyStr.codes "180f", PyStr.codes "Battery", 1,
          [⟨PyStr.codes "2a19", [], 2, [PyStr.codes "read"], Except.ok [100], []⟩,
           ⟨PyStr.codes "2a20", [], 3, [PyStr.codes "read"],
             Except.error (PyExc.bleakError (PyStr.codes "read not permitted")), []⟩,
           ⟨PyStr.codes "2a21", [], 4, [PyStr.codes "read"], Except.ok [1], []⟩]⟩] false
      = Except.ok ls ∧
      ConnectBle.charUuidsOf ls =
        [PyStr.codes "2a19", PyStr.codes "2a20", PyStr.codes "2a21"] ∧
      Line.couldNotRead (PyStr.codes "read not permitted") ∈ ls := by
  obtain ⟨ls, h1, _, hc, hm, _⟩ := unreadable_items_do_not_abort
    [⟨PyStr.codes "180f", PyStr.codes "Battery", 1,
      [⟨PyStr.codes "2a19", [], 2, [PyStr.codes "read"], Except.ok [100], []⟩,
       ⟨PyStr.codes "2a20", [], 3, [PyStr.codes "read"],
         Except.error (PyExc.bleakError (PyStr.codes "read not permitted")), []⟩,
       ⟨PyStr.codes "2a21", [], 4, [PyStr.codes "read"], Except.ok [1], []⟩]⟩] false
    (by decide)
  refine ⟨ls, h1, ?_, ?_⟩
  · rw [hc]
    decide
  · exact hm
      ⟨PyStr.codes "180f", PyStr.codes "Battery", 1,
        [⟨PyStr.codes "2a19", [], 2, [PyStr.codes "read"], Except.ok [100], []⟩,
         ⟨PyStr.codes "2a20", [], 3, [PyStr.codes "read"],
           Except.error (PyExc.bleakError (PyStr.codes "read not permitted")), []⟩,
         ⟨PyStr.codes "2a21", [], 4, [PyStr.codes "read"], Except.ok [1], []⟩]⟩ (by decide)
      ⟨PyStr.codes "2a20", [], 3, [PyStr.codes "read"],
        Except.error (PyExc.bleakError (PyStr.codes "read not permitted")), []⟩ (by decide)
      (by decide) (PyExc.bleakError (PyStr.codes "read not permitted")) rfl
